import Mathlib

/-!
Verification of the orchestration core of `cloud_manager.py` (class
`CloudManager`).  Python strings are modelled as Lean `String`s (sequences of
code points, accessed through `String.data`); Python `int` is `Int`; Python
`float` arithmetic on short decimal strings is modelled by exact rationals
(`Rat`) — the modelled computations (`x * 1024` on a short decimal literal,
byte counts divided by `2 ^ 20`) are exact or far from integer boundaries in
IEEE doubles for all realistic magnitudes, so the rational model agrees with
CPython on them.  Filesystem and subprocess effects are passed in as explicit
function parameters (`os.path.exists` becomes a `String → Bool`, the result
of a spawned tool becomes an `Except` value), and functions that can raise an
uncaught Python exception return `Option` or are guarded by the same
condition the exception would need.  `os.path.join` is modelled with the
POSIX separator, and `os.path.abspath`-based path resolution is an abstract
`String → String` parameter.
-/

/-- Digits of a decimal numeral to a natural number, as Python `int`/`float`
parsing accumulates them left to right. -/
def digitsToNat (l : List Char) : Nat :=
  l.foldl (fun acc c => acc * 10 + (c.toNat - 48)) 0

/-- Strip leading and trailing whitespace, as Python numeric-string
conversion does before parsing. -/
def trimWS (l : List Char) : List Char :=
  ((l.dropWhile Char.isWhitespace).reverse.dropWhile Char.isWhitespace).reverse

/-- Consume an optional leading sign; returns (isNegative, rest). -/
def parseSign : List Char → Bool × List Char
  | '-' :: rest => (true, rest)
  | '+' :: rest => (false, rest)
  | l => (false, l)

/-- Unsigned part of Python `float(s)` for plain decimal forms
`d+`, `d+.d*`, `.d+` (exponent forms, `inf`, `nan` and underscore separators
are not used by this program and are not modelled; on them the model, like
Python on genuinely malformed input, yields `none`). -/
def parseUnsignedFloat (l : List Char) : Option Rat :=
  let intPart := l.takeWhile Char.isDigit
  let rest := l.dropWhile Char.isDigit
  match rest with
  | [] => if intPart.isEmpty then none else some (digitsToNat intPart : Rat)
  | '.' :: frac =>
    if frac.all Char.isDigit ∧ (intPart.isEmpty = false ∨ frac.isEmpty = false) then
      some ((digitsToNat intPart : Rat) + (digitsToNat frac : Rat) / ((10 : Rat) ^ frac.length))
    else none
  | _ => none

/-- Python `float(s)` on a character list; `none` stands for `ValueError`. -/
def parseFloatL (l : List Char) : Option Rat :=
  let p := parseSign (trimWS l)
  (parseUnsignedFloat p.2).map (fun q => if p.1 then -q else q)

/-- Python `float(s)`. -/
def parseFloat (s : String) : Option Rat := parseFloatL s.data

/-- Python `int(s)` on a character list; `none` stands for `ValueError`:
optional surrounding whitespace, optional sign, then decimal digits only. -/
def parsePyIntL (l : List Char) : Option Int :=
  let p := parseSign (trimWS l)
  if p.2.isEmpty = false ∧ p.2.all Char.isDigit then
    some (if p.1 then -(digitsToNat p.2 : Int) else (digitsToNat p.2 : Int))
  else none

/-- Python `int(s)`. -/
def parsePyInt (s : String) : Option Int := parsePyIntL s.data

/-- Python `int(x)` applied to a number: truncation toward zero. -/
def ratTrunc (q : Rat) : Int := if 0 ≤ q then ⌊q⌋ else ⌈q⌉

/-- Memory-string conversion of `start_virtual_machine` on the character
list of `vm['memory']`:

    if memory[-1].upper() == 'G':
        memory_mb = int(float(memory[:-1]) * 1024)
    else:  # Assume MB
        memory_mb = int(memory[:-1])

`none` stands for the function's uncaught `IndexError` (empty string) or
`ValueError` (unparseable numeric part). -/
def memoryMBL (l : List Char) : Option Int :=
  match l.getLast? with
  | none => none
  | some c =>
    if c.toUpper = 'G' then
      (parseFloatL l.dropLast).map (fun q => ratTrunc (q * 1024))
    else
      parsePyIntL l.dropLast

/-- Memory-string conversion of `start_virtual_machine`. -/
def memoryMB (s : String) : Option Int := memoryMBL s.data

/-- Size normalization of `create_virtual_disk`:

    if not disk_size[-1].upper() in ['G', 'M', 'K']:
        disk_size += 'G'

The empty string (on which Python raises `IndexError`) is excluded by the
`Option` guard in `createDiskCmd`, so the `none` branch here is never
reached from it. -/
def normSize (s : String) : String :=
  match s.data.getLast? with
  | some c => if c.toUpper ∈ (['G', 'M', 'K'] : List Char) then s else s ++ "G"
  | none => s ++ "G"

/-- The command vector built by `create_virtual_disk`:

    disk_path = os.path.join(self.disks_dir, f"{disk_name}.{disk_format}")
    ...
    disk_path_abs = os.path.abspath(disk_path)
    command = ["qemu-img", "create", "-f", disk_format, disk_path_abs, disk_size]

`absPath` abstracts `os.path.abspath`; `none` stands for the `IndexError`
the size normalization raises on an empty size string (raised before any
command is built or run). -/
def createDiskCmd (absPath : String → String) (name fmt size : String) :
    Option (List String) :=
  if size = "" then none
  else
    some ["qemu-img", "create", "-f", fmt,
      absPath ("virtual_disks" ++ "/" ++ name ++ "." ++ fmt), normSize size]

/-- A JSON value, as produced/consumed by the `json` standard library.  The
registry only ever stores strings, integers, `null`, objects and arrays, so
float payloads do not occur in what this program writes. -/
inductive Json where
  | null
  | bool (b : Bool)
  | num (n : Int)
  | str (s : String)
  | arr (xs : List Json)
  | obj (fields : List (String × Json))

/-- Field access on a JSON object (Python `dict` lookup; keys written by
this program are unique). -/
def jlookup (j : Json) (k : String) : Option Json :=
  match j with
  | Json.obj fields => fields.lookup k
  | _ => none

/-- A VM record as `create_virtual_machine` receives it.  In Python the
record is a `dict`; `iso` is `None` or a string. -/
structure VM where
  name : String
  cpu_cores : Int
  memory : String
  disk : String
  iso : Option String
deriving DecidableEq

/-- The `vm_config` dict built by `create_virtual_machine`, as the JSON
value `json.dump` serializes. -/
def mkVmConfig (v : VM) : Json :=
  Json.obj [("name", Json.str v.name), ("cpu_cores", Json.num v.cpu_cores),
    ("memory", Json.str v.memory), ("disk", Json.str v.disk),
    ("iso", match v.iso with | some s => Json.str s | none => Json.null)]

/-- Result of `create_virtual_machine`: the new in-memory list, the JSON
value written over the whole registry file, and the returned
(success, message) pair. -/
structure CreateResult where
  state : List Json
  file : Json
  ok : Bool
  message : String

/-- Apostrophe character, written by code point to keep it out of source
literals. -/
def apos : String := String.singleton (Char.ofNat 39)

/-- `create_virtual_machine`: appends the config to the in-memory list,
rewrites the registry file with the full list, and returns success.  There
is no validation of any argument and no filesystem existence check (the
function takes no filesystem parameter at all). -/
def createVirtualMachine (st : List Json) (v : VM) : CreateResult :=
  let st2 := st ++ [mkVmConfig v]
  ⟨st2, Json.arr st2, true,
    "Virtual Machine " ++ apos ++ v.name ++ apos ++ " created successfully!"⟩

/-- Iterated creation: each call rewrites the whole file, so after the last
call the file holds exactly the final list. -/
def createMany (st : List Json) : List VM → List Json
  | [] => st
  | v :: vs => createMany (createVirtualMachine st v).state vs

/-- Registry file content after creating `vs` from an empty registry: `none`
(file untouched, possibly missing) when nothing was created, otherwise the
array written by the last `create_virtual_machine` call.  The textual layer
of `json.dump`/`json.load` is abstracted: the file holds the JSON value
(the `json` module round-trips the values this program writes). -/
def registryFileAfter (vs : List VM) : Option Json :=
  match vs with
  | [] => none
  | _ => some (Json.arr (createMany [] vs))

/-- Value-level registry reload: a missing file loads as the empty list. -/
def reloadValue (file : Option Json) : Json :=
  match file with
  | none => Json.arr []
  | some j => j

/-- The list of elements of a loaded JSON array. -/
def jsonList : Json → List Json
  | Json.arr xs => xs
  | _ => []

/-- Registry contents observed after reloading the file written by creating
`vs` from an empty registry. -/
def reloadAfter (vs : List VM) : List Json :=
  jsonList (reloadValue (registryFileAfter vs))

/-- Registry load in `__init__`:

    if os.path.exists(self.vms_file):
        try:
            with open(self.vms_file, 'r') as f:
                self.virtual_machines = json.load(f)
        except json.JSONDecodeError:
            self.virtual_machines = []

`content` is the text of the registry file (`none` when the file is
missing); `parse` abstracts `json.load`, with `none` standing for
`json.JSONDecodeError`. -/
def loadRegistry (parse : String → Option Json) (content : Option String) : Json :=
  match content with
  | none => Json.arr []
  | some s =>
    match parse s with
    | none => Json.arr []
    | some j => j

/-- One entry of the disk directory listing: name, whether it is a regular
file, and its physical size in bytes (`os.path.getsize`). -/
structure DirEntry where
  name : String
  isFile : Bool
  sizeBytes : Nat
deriving DecidableEq

/-- One record of `list_virtual_disks`. -/
structure DiskInfo where
  index : Nat
  name : String
  path : String
  format : String
  size : String
deriving DecidableEq

/-- Python `f"{size_mb:.2f}"` for `size_mb = bytes / (1024 * 1024)`:
the number of hundredths is `bytes * 25 / 2 ^ 18` rounded half to even,
exactly the decimal CPython prints for the (exactly dyadic) double
`bytes / 2 ^ 20` whenever `bytes < 2 ^ 53`. -/
def formatMB2 (bytes : Nat) : String :=
  let num := bytes * 25
  let den := 262144
  let q := num / den
  let r := num % den
  let h := if 2 * r < den then q
    else if den < 2 * r then q + 1
    else if q % 2 = 0 then q else q + 1
  toString (h / 100) ++ "." ++
    (if h % 100 < 10 then "0" ++ toString (h % 100) else toString (h % 100))

/-- `os.path.join(self.disks_dir, filename)`. -/
def diskPath (filename : String) : String := "virtual_disks" ++ "/" ++ filename

/-- One pass of the `qemu-img info` output scan over a single line:

    if "file format:" in line:
        format_info = line.split("file format:")[1].strip()
    if "virtual size:" in line:
        size_info = line.split("virtual size:")[1].strip()

`line.split(sub)[1]` is the chunk after the first occurrence of `sub` (and
before the second, if any); the `in` guard makes index 1 defined. -/
def scanLine (acc : String × String) (line : String) : String × String :=
  let acc1 := match line.splitOn "file format:" with
    | _ :: second :: _ => (second.trim, acc.2)
    | _ => acc
  match line.splitOn "virtual size:" with
  | _ :: second :: _ => (acc1.1, second.trim)
  | _ => acc1

/-- Scan of the whole `qemu-img info` stdout, starting from the defaults
`("Unknown", f"{size_mb:.2f} MB (physical)")`. -/
def scanInfo (out : String) (dflt : String × String) : String × String :=
  (out.splitOn "\n").foldl scanLine dflt

/-- The record `list_virtual_disks` appends for the regular file `e` at
1-based enumeration index `idx`.  `info` abstracts the `qemu-img info`
subprocess: `Except.ok stdout` for exit status 0, `Except.error ()` for the
`subprocess.CalledProcessError` of a non-zero exit. -/
def diskRecord (info : String → Except Unit String) (idx : Nat) (e : DirEntry) : DiskInfo :=
  match info (diskPath e.name) with
  | Except.ok out =>
    let fs := scanInfo out ("Unknown", formatMB2 e.sizeBytes ++ " MB (physical)")
    ⟨idx, e.name, diskPath e.name, fs.1, fs.2⟩
  | Except.error _ =>
    ⟨idx, e.name, diskPath e.name, "Unknown", formatMB2 e.sizeBytes ++ " MB"⟩

/-- The loop of `list_virtual_disks`: `enumerate(os.listdir(...), 1)`
numbers every directory entry (regular file or not), and only regular files
contribute a record.  The function is total: a failing `info` query yields
the fallback record, never an exception. -/
def listVirtualDisksAux (info : String → Except Unit String) (i : Nat) :
    List DirEntry → List DiskInfo
  | [] => []
  | e :: rest =>
    (if e.isFile then [diskRecord info i e] else []) ++ listVirtualDisksAux info (i + 1) rest

/-- `list_virtual_disks` over the given directory contents. -/
def listVirtualDisks (entries : List DirEntry) (info : String → Except Unit String) :
    List DiskInfo :=
  listVirtualDisksAux info 1 entries

/-- Split a character list at every occurrence of `sep` (the separator is
dropped; adjacent separators give empty chunks, as Python `str.split` with
an explicit separator does). -/
def splitOnChar (sep : Char) : List Char → List (List Char)
  | [] => [[]]
  | c :: rest =>
    let r := splitOnChar sep rest
    if c = sep then [] :: r
    else
      match r with
      | [] => [[c]]
      | chunk :: t => (c :: chunk) :: t

/-- `os.path.basename` (POSIX separator): everything after the last
slash. -/
def basename (s : String) : String :=
  match (splitOnChar '/' s.data).getLast? with
  | some l => String.mk l
  | none => s

/-- A filesystem operation attempted by `import_iso_file`, in order. -/
inductive FsOp where
  | rename (src dst : String)
  | copy (src dst : String)
deriving DecidableEq

/-- `import_iso_file`: returns the (success, message) pair of the Python
function together with the trace of attempted filesystem operations.
`pathExists` abstracts `os.path.exists`; `renameOp`/`copyOp` abstract
`os.rename` and `shutil.copy2`, an `Except.error` payload being the text of
the raised `OSError`. -/
def importIsoFile (pathExists : String → Bool)
    (renameOp copyOp : String → String → Except String Unit)
    (source : String) (destName : Option String) : (Bool × String) × List FsOp :=
  if pathExists source then
    let dn := destName.getD (basename source)
    let dest := "iso_images" ++ "/" ++ dn
    match renameOp source dest with
    | Except.ok _ =>
      ((true, "ISO file imported successfully to " ++ dest), [FsOp.rename source dest])
    | Except.error _ =>
      match copyOp source dest with
      | Except.ok _ =>
        ((true, "ISO file imported successfully to " ++ dest),
          [FsOp.rename source dest, FsOp.copy source dest])
      | Except.error e =>
        ((false, "Error importing ISO file: " ++ e),
          [FsOp.rename source dest, FsOp.copy source dest])
  else ((false, "File not found: " ++ source), [])

/-- Outcome of the bounded one-second wait on the Windows branch of
`start_virtual_machine`: the process exited with a status (and captured
stderr text), or `process.wait(timeout=1)` raised `TimeoutExpired`. -/
inductive WaitOutcome where
  | exited (code : Int) (stderrText : String)
  | timedOut
deriving DecidableEq

/-- The launch/verdict tail of `start_virtual_machine`.  `spawnWin` is the
combined result of `subprocess.Popen` plus the bounded wait on the platform
string `"Windows"` (`Except.error` when `Popen` itself raises); `spawnUnix`
is the detached `Popen` on every other platform. -/
def startProcess (plat : String) (spawnWin : Except String WaitOutcome)
    (spawnUnix : Except String Unit) (vmName debugInfo : String) : Bool × String :=
  let successMsg := "VM " ++ apos ++ vmName ++ apos ++ " started successfully!\n" ++ debugInfo
  if plat = "Windows" then
    match spawnWin with
    | Except.error e => (false, "Error starting VM: " ++ e ++ "\n" ++ debugInfo)
    | Except.ok (WaitOutcome.exited code stderrText) =>
      if code ≠ 0 then
        (false, "QEMU process exited with code " ++ toString code ++ ": " ++ stderrText)
      else (true, successMsg)
    | Except.ok WaitOutcome.timedOut => (true, successMsg)
  else
    match spawnUnix with
    | Except.error e => (false, "Error starting VM: " ++ e ++ "\n" ++ debugInfo)
    | Except.ok _ => (true, successMsg)

/-- The QEMU argument vector built by `start_virtual_machine`.  `fs`
abstracts `os.path.exists` at launch time; `resolve` abstracts
`os.path.abspath(...).replace('\\', '/')`.  `none` stands for the uncaught
exception of the memory conversion; Python truthiness makes
`vm.get('iso')` false for both `None` and the empty string. -/
def buildQemuCmd (fs : String → Bool) (resolve : String → String) (vm : VM) :
    Option (List String) :=
  (memoryMB vm.memory).map (fun m =>
    ["qemu-system-x86_64", "-name", vm.name, "-m", toString m,
      "-smp", toString vm.cpu_cores]
    ++ ["-hda", resolve vm.disk]
    ++ (match vm.iso with
        | some s =>
          if s ≠ "" ∧ fs s = true then ["-cdrom", resolve s, "-boot", "d"]
          else ["-boot", "c"]
        | none => ["-boot", "c"])
    ++ ["-device", "e1000,netdev=net0"] ++ ["-netdev", "user,id=net0"]
    ++ ["-accel", "tcg"]
    ++ ["-display", "sdl"])

theorem data_append (s u : String) : (s ++ u).data = s.data ++ u.data := by
  cases s; cases u; rfl

theorem memoryMB_append (t : String) (c : Char) :
    memoryMB (t ++ String.singleton c) =
      (if c.toUpper = 'G' then (parseFloatL t.data).map (fun q => ratTrunc (q * 1024))
       else parsePyIntL t.data) := by
  have hd : (t ++ String.singleton c).data = t.data ++ [c] := by
    rw [data_append]; rfl
  simp only [memoryMB, memoryMBL, hd, List.getLast?_concat, List.dropLast_concat]

/-- C1 (amended): with suffix `G`/`g` the launch memory is the numeric
prefix times 1024 truncated toward zero (Python `int(float(p) * 1024)`),
not rounded; with any other final character (so for `<n>M`, but also for a
unit-less string, whose last digit is therefore lost) it is Python
`int(p)` of the string with its final character removed. -/
theorem c1_memory_conversion_amended (t : String) :
    memoryMB (t ++ "G") = (parseFloat t).map (fun q => ratTrunc (q * 1024)) ∧
    memoryMB (t ++ "g") = (parseFloat t).map (fun q => ratTrunc (q * 1024)) ∧
    (∀ c : Char, c.toUpper ≠ 'G' → memoryMB (t ++ String.singleton c) = parsePyInt t) := by
  refine ⟨?_, ?_, ?_⟩
  · show memoryMB (t ++ String.singleton 'G') = _
    rw [memoryMB_append, if_pos (show 'G'.toUpper = 'G' from rfl)]; rfl
  · show memoryMB (t ++ String.singleton 'g') = _
    rw [memoryMB_append, if_pos (show 'g'.toUpper = 'G' from rfl)]; rfl
  · intro c hc
    rw [memoryMB_append, if_neg hc]; rfl

/-- C1 (counterexample to the claim as stated): the unit-less memory string
"512" yields 51, not floor(512) = 512 (the code strips the final character
before `int`), and "1.7G" yields the truncation 1740, not
round(1.7 * 1024) = 1741. -/
theorem c1_memory_conversion_counterexample :
    memoryMB "512" = some 51 ∧ memoryMB "512" ≠ some 512 ∧
    memoryMB "1.7G" = some 1740 ∧ memoryMB "1.7G" ≠ some 1741 := by
  have h17 : memoryMB "1.7G" =
      some (ratTrunc (((digitsToNat ['1'] : Rat) +
        (digitsToNat ['7'] : Rat) / (10 : Rat) ^ 1) * 1024)) := rfl
  have e17 : memoryMB "1.7G" = some 1740 := by
    rw [h17, ratTrunc]
    norm_num [digitsToNat, show ('1'.toNat - 48 : Nat) = 1 from rfl,
      show ('7'.toNat - 48 : Nat) = 7 from rfl]
  exact ⟨by decide, by decide, e17, by simp [e17]⟩

/-- C1 witness: concrete evaluations through the amended theorem. -/
theorem c1_memory_conversion_amended_witness :
    memoryMB "2G" = some 2048 ∧ memoryMB "512M" = some 512 ∧ memoryMB "512" = some 51 := by
  refine ⟨?_, ?_, ?_⟩
  · show memoryMB ("2" ++ "G") = some 2048
    rw [(c1_memory_conversion_amended "2").1]
    have hp : parseFloat "2" = some ((digitsToNat ['2'] : Rat)) := rfl
    rw [hp, Option.map_some']
    have : ratTrunc ((digitsToNat ['2'] : Rat) * 1024) = 2048 := by
      rw [ratTrunc]
      norm_num [digitsToNat, show ('2'.toNat - 48 : Nat) = 2 from rfl]
    rw [this]
  · show memoryMB ("512" ++ String.singleton 'M') = some 512
    rw [(c1_memory_conversion_amended "512").2.2 'M' (by decide)]
    decide
  · show memoryMB ("51" ++ String.singleton '2') = some 51
    rw [(c1_memory_conversion_amended "51").2.2 '2' (by decide)]
    decide

/-- C3: for every non-empty size string, `create_virtual_disk` appends "G"
exactly when the final character is not K/M/G in either case, and leaves
the string unchanged otherwise. -/
theorem c3_size_normalization (s : String) (c : Char) (h : s.data.getLast? = some c) :
    (c.toUpper ∉ (['G', 'M', 'K'] : List Char) → normSize s = s ++ "G") ∧
    (c.toUpper ∈ (['G', 'M', 'K'] : List Char) → normSize s = s) := by
  constructor <;> intro hc <;> simp [normSize, h, hc]

/-- C3 witness: "5" gains the default gigabyte suffix, "5G" is unchanged. -/
theorem c3_size_normalization_witness :
    normSize "5" = "5G" ∧ normSize "5G" = "5G" := by
  constructor
  · exact ((c3_size_normalization "5" '5' (by decide)).1 (by decide)).trans rfl
  · exact (c3_size_normalization "5G" 'G' (by decide)).2 (by decide)

/-- C4: a missing registry file, and a registry file whose content does not
parse as JSON, both load as the empty list, silently. -/
theorem c4_registry_load_fallback (parse : String → Option Json) (content : Option String) :
    (content = none → loadRegistry parse content = Json.arr []) ∧
    (∀ s, content = some s → parse s = none → loadRegistry parse content = Json.arr []) := by
  constructor
  · intro h; rw [h]; rfl
  · intro s hs hp; rw [hs]; simp [loadRegistry, hp]

/-- C4 witness: a missing file and a truncated JSON document both load as
the empty list. -/
theorem c4_registry_load_fallback_witness :
    loadRegistry (fun _ => none) none = Json.arr [] ∧
    loadRegistry (fun _ => none) (some "[ 1, 2") = Json.arr [] := by
  constructor
  · exact (c4_registry_load_fallback (fun _ => none) none).1 rfl
  · exact (c4_registry_load_fallback (fun _ => none) (some "[ 1, 2")).2 "[ 1, 2" rfl rfl

theorem createMany_eq (st : List Json) (vs : List VM) :
    createMany st vs = st ++ vs.map mkVmConfig := by
  induction vs generalizing st with
  | nil => simp [createMany]
  | cons v vs ih => simp [createMany, createVirtualMachine, ih]

theorem reloadAfter_eq (vs : List VM) : reloadAfter vs = vs.map mkVmConfig := by
  cases vs with
  | nil => rfl
  | cons v vs =>
    simp [reloadAfter, registryFileAfter, reloadValue, jsonList, createMany_eq]

/-- C5: creating N VM definitions from an empty registry and reloading the
registry file yields a list of length N, in insertion order, whose k-th
element is the submitted k-th record, and each stored object carries the
submitted name, cpu_cores, memory, disk and iso fields. -/
theorem c5_registry_roundtrip (vs : List VM) :
    (reloadAfter vs).length = vs.length ∧
    (∀ k, (reloadAfter vs).get? k = (vs.get? k).map mkVmConfig) ∧
    (∀ v : VM,
      jlookup (mkVmConfig v) "name" = some (Json.str v.name) ∧
      jlookup (mkVmConfig v) "cpu_cores" = some (Json.num v.cpu_cores) ∧
      jlookup (mkVmConfig v) "memory" = some (Json.str v.memory) ∧
      jlookup (mkVmConfig v) "disk" = some (Json.str v.disk) ∧
      jlookup (mkVmConfig v) "iso" =
        some (match v.iso with | some s => Json.str s | none => Json.null)) := by
  refine ⟨?_, ?_, ?_⟩
  · rw [reloadAfter_eq]; simp
  · intro k; rw [reloadAfter_eq]; simp [List.get?_map]
  · intro v
    refine ⟨rfl, ?_, ?_, ?_, ?_⟩ <;> rfl

/-- C10: `create_virtual_machine` validates nothing: for every state and
every record (empty name, non-positive core count, dangling disk and iso
paths included — the function consults no filesystem at all), it appends
the record, rewrites the whole registry file, and reports success. -/
theorem c10_create_no_validation (st : List Json) (v : VM) :
    (createVirtualMachine st v).state = st ++ [mkVmConfig v] ∧
    (createVirtualMachine st v).file = Json.arr (st ++ [mkVmConfig v]) ∧
    (createVirtualMachine st v).ok = true :=
  ⟨rfl, rfl, rfl⟩

/-- C2: `start_virtual_machine` builds exactly the ordered argument vector,
with the cdrom attachment and optical-first boot order present precisely
when the ISO path is set and the file exists at launch time (Python's
`os.path.exists("")` is false, which `h0` encodes), and hard-disk boot
otherwise.  The hypothesis `hm` is the memory conversion succeeding — on
failure the Python function raises before building any command. -/
theorem c2_qemu_command (fs : String → Bool) (resolve : String → String) (vm : VM) (m : Int)
    (hm : memoryMB vm.memory = some m) (h0 : fs "" = false) :
    buildQemuCmd fs resolve vm = some (
      (["qemu-system-x86_64", "-name", vm.name, "-m", toString m,
        "-smp", toString vm.cpu_cores, "-hda", resolve vm.disk]
        ++ (match vm.iso with
            | some s =>
              if fs s = true then ["-cdrom", resolve s, "-boot", "d"] else ["-boot", "c"]
            | none => ["-boot", "c"]))
        ++ ["-device", "e1000,netdev=net0", "-netdev", "user,id=net0",
            "-accel", "tcg", "-display", "sdl"]) := by
  cases hiso : vm.iso with
  | none => simp [buildQemuCmd, hm, hiso]
  | some s =>
    by_cases hs : s = ""
    · subst hs
      simp [buildQemuCmd, hm, hiso, h0]
    · cases hfs : fs s <;> simp [buildQemuCmd, hm, hiso, hs, hfs]

/-- C2 witness: the end-to-end scenario VM "vm1", 2 cores, "2G" memory,
no ISO. -/
theorem c2_qemu_command_witness :
    buildQemuCmd (fun _ => false) id ⟨"vm1", 2, "2G", "vd/a.qcow2", none⟩ =
      some ["qemu-system-x86_64", "-name", "vm1", "-m", "2048", "-smp", "2",
        "-hda", "vd/a.qcow2", "-boot", "c", "-device", "e1000,netdev=net0",
        "-netdev", "user,id=net0", "-accel", "tcg", "-display", "sdl"] := by
  have hm : memoryMB "2G" = some 2048 := by
    have h : memoryMB "2G" = some (ratTrunc ((digitsToNat ['2'] : Rat) * 1024)) := rfl
    rw [h, ratTrunc]
    norm_num [digitsToNat, show ('2'.toNat - 48 : Nat) = 2 from rfl]
  exact (c2_qemu_command (fun _ => false) id ⟨"vm1", 2, "2G", "vd/a.qcow2", none⟩ 2048
    hm rfl).trans (by decide)

theorem diskRecord_mem_aux (info : String → Except Unit String) :
    ∀ (entries : List DirEntry) (start k : Nat) (e : DirEntry),
      entries.get? k = some e → e.isFile = true →
      diskRecord info (start + k) e ∈ listVirtualDisksAux info start entries := by
  intro entries
  induction entries with
  | nil => intro start k e h hf; simp at h
  | cons a rest ih =>
    intro start k e h hf
    cases k with
    | zero =>
      rw [List.get?_cons_zero] at h
      cases h
      simp [listVirtualDisksAux, hf]
    | succ k2 =>
      rw [List.get?_cons_succ] at h
      have hmem := ih (start + 1) k2 e h hf
      have harith : start + (k2 + 1) = (start + 1) + k2 := by omega
      rw [harith]
      simp only [listVirtualDisksAux]
      exact List.mem_append_right _ hmem

/-- C6 (amended): when the info query for a regular file exits non-zero,
that file still appears in the listing, with format "Unknown" (capital U,
as the code writes it) and the physical size in megabytes to two decimals;
every regular file's record appears, and each record depends only on the
info result for that file's own path, so one failing disk cannot change any
other entry; the listing is a total function — it never raises. -/
theorem c6_disk_listing_amended (entries : List DirEntry) (info : String → Except Unit String)
    (i : Nat) (e : DirEntry) (h : entries.get? i = some e) (hf : e.isFile = true)
    (he : info (diskPath e.name) = Except.error ()) :
    diskRecord info (1 + i) e ∈ listVirtualDisks entries info ∧
    diskRecord info (1 + i) e =
      ⟨1 + i, e.name, diskPath e.name, "Unknown", formatMB2 e.sizeBytes ++ " MB"⟩ ∧
    (∀ j f2, entries.get? j = some f2 → f2.isFile = true →
      diskRecord info (1 + j) f2 ∈ listVirtualDisks entries info) ∧
    (∀ info2 j f2, info2 (diskPath f2.name) = info (diskPath f2.name) →
      diskRecord info2 j f2 = diskRecord info j f2) := by
  refine ⟨diskRecord_mem_aux info entries 1 i e h hf, ?_, ?_, ?_⟩
  · unfold diskRecord
    rw [he]
  · intro j f2 hj hf2
    exact diskRecord_mem_aux info entries 1 j f2 hj hf2
  · intro info2 j f2 hagree
    unfold diskRecord
    rw [hagree]

/-- C6 (counterexample to the claim as stated): the fallback format string
the code writes is "Unknown", not "unknown". -/
theorem c6_disk_listing_counterexample :
    listVirtualDisks [⟨"bad.img", true, 0⟩] (fun _ => Except.error ()) =
      [⟨1, "bad.img", "virtual_disks/bad.img", "Unknown", "0.00 MB"⟩] ∧
    ∀ d ∈ listVirtualDisks [⟨"bad.img", true, 0⟩] (fun _ => Except.error ()),
      d.format ≠ "unknown" := by
  constructor
  · decide
  · decide

/-- Info-query stub for the C6 witness: fails on bad.img, succeeds
elsewhere. -/
def infoW : String → Except Unit String :=
  fun p => if p = "virtual_disks/bad.img" then Except.error ()
    else Except.ok "file format: qcow2"

/-- C6 witness: in a two-file directory where only bad.img's info query
fails, bad.img is listed with the fallback record. -/
theorem c6_disk_listing_amended_witness :
    (⟨2, "bad.img", "virtual_disks/bad.img", "Unknown", "0.00 MB"⟩ : DiskInfo) ∈
      listVirtualDisks [⟨"ok.img", true, 4⟩, ⟨"bad.img", true, 0⟩] infoW := by
  have h := c6_disk_listing_amended [⟨"ok.img", true, 4⟩, ⟨"bad.img", true, 0⟩] infoW 1
    ⟨"bad.img", true, 0⟩ rfl rfl rfl
  have h1 := h.1
  rw [h.2.1] at h1
  exact h1

/-- C7: `create_virtual_disk` resolves the target path as
`virtual_disks/<name>.<format>`, passes it through `os.path.abspath`, and
invokes the disk-image tool with exactly
`create -f <format> <absolutePath> <normalizedSize>`. -/
theorem c7_disk_create_command (absPath : String → String) (name fmt size : String)
    (h : size ≠ "") :
    createDiskCmd absPath name fmt size =
      some ["qemu-img", "create", "-f", fmt,
        absPath ("virtual_disks" ++ "/" ++ name ++ "." ++ fmt), normSize size] := by
  simp [createDiskCmd, h]

/-- C7 witness: the end-to-end scenario — disk "alpha", format "qcow2",
size "5" normalizes to "5G". -/
theorem c7_disk_create_command_witness :
    createDiskCmd (fun p => "/abs/" ++ p) "alpha" "qcow2" "5" =
      some ["qemu-img", "create", "-f", "qcow2", "/abs/virtual_disks/alpha.qcow2", "5G"] := by
  rw [c7_disk_create_command (fun p => "/abs/" ++ p) "alpha" "qcow2" "5" (by decide)]
  decide

/-- C8: `import_iso_file` fails with a not-found outcome and touches
nothing when the source is missing; otherwise the destination is
`iso_images/<destName>` with `destName` defaulting to the source's base
filename, a move (`os.rename`) is attempted first, and a copy is attempted
exactly when the move fails. -/
theorem c8_import_iso (pathExists : String → Bool)
    (renameOp copyOp : String → String → Except String Unit)
    (source : String) (destName : Option String) :
    (pathExists source = false →
      importIsoFile pathExists renameOp copyOp source destName =
        ((false, "File not found: " ++ source), [])) ∧
    (pathExists source = true →
      ∀ dest, dest = "iso_images" ++ "/" ++ destName.getD (basename source) →
      ((importIsoFile pathExists renameOp copyOp source destName).2.head? =
          some (FsOp.rename source dest)) ∧
      (renameOp source dest = Except.ok () →
        (importIsoFile pathExists renameOp copyOp source destName).2 =
          [FsOp.rename source dest]) ∧
      (∀ err, renameOp source dest = Except.error err →
        (importIsoFile pathExists renameOp copyOp source destName).2 =
          [FsOp.rename source dest, FsOp.copy source dest])) := by
  constructor
  · intro h
    simp [importIsoFile, h]
  · intro h dest hdest
    have hgoal : importIsoFile pathExists renameOp copyOp source destName =
        (match renameOp source dest with
         | Except.ok _ =>
           ((true, "ISO file imported successfully to " ++ dest), [FsOp.rename source dest])
         | Except.error _ =>
           match copyOp source dest with
           | Except.ok _ =>
             ((true, "ISO file imported successfully to " ++ dest),
               [FsOp.rename source dest, FsOp.copy source dest])
           | Except.error e =>
             ((false, "Error importing ISO file: " ++ e),
               [FsOp.rename source dest, FsOp.copy source dest])) := by
      subst hdest
      simp [importIsoFile, h]
    refine ⟨?_, ?_, ?_⟩
    · rw [hgoal]
      cases hr : renameOp source dest with
      | ok u => rfl
      | error e => cases hc : copyOp source dest <;> rfl
    · intro hok
      rw [hgoal, hok]
    · intro err herr
      rw [hgoal, herr]
      cases hc : copyOp source dest <;> rfl

/-- C8 witness: missing source; successful move; move failure followed by
copy. -/
theorem c8_import_iso_witness :
    importIsoFile (fun _ => false) (fun _ _ => Except.ok ()) (fun _ _ => Except.ok ())
        "a/b.iso" none = ((false, "File not found: a/b.iso"), []) ∧
    (importIsoFile (fun _ => true) (fun _ _ => Except.ok ()) (fun _ _ => Except.ok ())
        "a/b.iso" none).2 = [FsOp.rename "a/b.iso" "iso_images/b.iso"] ∧
    (importIsoFile (fun _ => true) (fun _ _ => Except.error "cross-device")
        (fun _ _ => Except.ok ()) "a/b.iso" none).2 =
      [FsOp.rename "a/b.iso" "iso_images/b.iso", FsOp.copy "a/b.iso" "iso_images/b.iso"] := by
  refine ⟨?_, ?_, ?_⟩
  · exact ((c8_import_iso (fun _ => false) (fun _ _ => Except.ok ()) (fun _ _ => Except.ok ())
      "a/b.iso" none).1 rfl).trans (by decide)
  · exact (((c8_import_iso (fun _ => true) (fun _ _ => Except.ok ()) (fun _ _ => Except.ok ())
      "a/b.iso" none).2 rfl ("iso_images" ++ "/" ++ (none : Option String).getD
        (basename "a/b.iso")) rfl).2.1 rfl).trans (by decide)
  · exact (((c8_import_iso (fun _ => true) (fun _ _ => Except.error "cross-device")
      (fun _ _ => Except.ok ()) "a/b.iso" none).2 rfl ("iso_images" ++ "/" ++
        (none : Option String).getD (basename "a/b.iso")) rfl).2.2 "cross-device"
      rfl).trans (by decide)

/-- C9: on the "Windows" platform branch the launch is reported failed,
with the captured error-stream text, exactly when the process exits within
the bounded wait with a non-zero status; a zero exit or a timeout of the
wait is success; on every other platform the launch succeeds exactly when
the detached spawn does not raise. -/
theorem c9_process_launch (plat : String) (spawnWin : Except String WaitOutcome)
    (spawnUnix : Except String Unit) (vmName debugInfo : String) :
    (plat = "Windows" → ∀ code stderrText,
      spawnWin = Except.ok (WaitOutcome.exited code stderrText) → code ≠ 0 →
      startProcess plat spawnWin spawnUnix vmName debugInfo =
        (false, "QEMU process exited with code " ++ toString code ++ ": " ++ stderrText)) ∧
    (plat = "Windows" → ∀ stderrText,
      spawnWin = Except.ok (WaitOutcome.exited 0 stderrText) →
      (startProcess plat spawnWin spawnUnix vmName debugInfo).1 = true) ∧
    (plat = "Windows" → spawnWin = Except.ok WaitOutcome.timedOut →
      (startProcess plat spawnWin spawnUnix vmName debugInfo).1 = true) ∧
    (plat ≠ "Windows" →
      ((startProcess plat spawnWin spawnUnix vmName debugInfo).1 = true ↔
        spawnUnix = Except.ok ())) := by
  refine ⟨?_, ?_, ?_, ?_⟩
  · intro hp code stderrText hsw hc
    subst hp
    simp [startProcess, hsw, hc]
  · intro hp stderrText hsw
    subst hp
    simp [startProcess, hsw]
  · intro hp hsw
    subst hp
    simp [startProcess, hsw]
  · intro hp
    constructor
    · intro h1
      cases hsu : spawnUnix with
      | ok u => cases u; rfl
      | error e => simp [startProcess, hp, hsu] at h1
    · intro h
      simp [startProcess, hp, h]

/-- C9 witness: non-zero exit, zero exit, timeout, and the non-Windows
detached spawn. -/
theorem c9_process_launch_witness :
    startProcess "Windows" (Except.ok (WaitOutcome.exited 1 "boom")) (Except.ok ())
        "vm1" "dbg" =
      (false, "QEMU process exited with code " ++ toString (1 : Int) ++ ": " ++ "boom") ∧
    (startProcess "Windows" (Except.ok (WaitOutcome.exited 0 "")) (Except.ok ())
      "vm1" "dbg").1 = true ∧
    (startProcess "Windows" (Except.ok WaitOutcome.timedOut) (Except.ok ())
      "vm1" "dbg").1 = true ∧
    (startProcess "Linux" (Except.ok WaitOutcome.timedOut) (Except.ok ())
      "vm1" "dbg").1 = true := by
  refine ⟨?_, ?_, ?_, ?_⟩
  · exact (c9_process_launch "Windows" _ _ "vm1" "dbg").1 rfl 1 "boom" rfl (by decide)
  · exact (c9_process_launch "Windows" _ _ "vm1" "dbg").2.1 rfl "" rfl
  · exact (c9_process_launch "Windows" _ _ "vm1" "dbg").2.2.1 rfl rfl
  · exact ((c9_process_launch "Linux" _ _ "vm1" "dbg").2.2.2 (by decide)).mpr rfl
